import Mathlib

/-!
Verification development for the election-monitor application: a shallow
embedding of the submission / verification / broadcast / livestream slice,
with the frontend WebSocket hook and the station-update submit handler
embedded directly from the React sources.

The Django backend is not part of the checked-in sources (only the React
frontend, configuration and documentation are), so the server-side
components (Submission API, Verification Engine, Broadcaster, Media/Stream
Registry, serializers) are modelled from the specification, as flagged on
each such definition.
-/

namespace ElectionMonitor

/-- Submission kinds: polling-station updates and incident reports. -/
inductive Kind where
  | stationUpdate
  | incident
deriving DecidableEq, Repr

/-- Verification statuses. `resolved` applies only to incidents. -/
inductive VStatus where
  | pending
  | verified
  | disputed
  | unverified
  | resolved
deriving DecidableEq, Repr

/-- Actor roles relevant to the verification workflow. -/
inductive Role where
  | administrator
  | observer
  | citizen
deriving DecidableEq, Repr

/-- Error taxonomy of the API layer (spec section 7). -/
inductive ApiError where
  | validationError
  | permissionError
  | notFoundError
deriving DecidableEq, Repr

/-- An election, with its active flag (only active elections accept
submissions). -/
structure Election where
  id : Nat
  isActive : Bool
deriving DecidableEq, Repr

/-- A Submission record (abstract over StationUpdate | IncidentReport). -/
structure Submission where
  id : Nat
  kind : Kind
  electionRef : Nat
  pollingStationRef : Option Nat
  isAnonymous : Bool
  submitter : Option Nat
  verificationStatus : VStatus
deriving DecidableEq, Repr

/-- A Verification row: an immutable audit record referencing exactly one
submission by kind + id. -/
structure Verification where
  id : Nat
  submissionKind : Kind
  submissionId : Nat
  actor : Nat
  resultingStatus : VStatus
  notes : String
deriving DecidableEq, Repr

/-- Broadcast event types. -/
inductive EventType where
  | created
  | statusChanged
deriving DecidableEq, Repr

/-- A broadcast event emitted by the Submission API / Verification Engine. -/
structure BEvent where
  etype : EventType
  kind : Kind
  submissionId : Nat
deriving DecidableEq, Repr

/-- Server-side state: persisted records plus the stream of emitted
broadcast events. Verifications are stored in creation order (appended at
the end). -/
structure ServerState where
  elections : List Election
  stations : List Nat
  submissions : List Submission
  verifications : List Verification
  events : List BEvent
  nextSubId : Nat
  nextVerId : Nat
deriving DecidableEq, Repr

/-- Initial server state: given reference data, no submissions,
verifications or events yet. -/
def initState (els : List Election) (stations : List Nat) : ServerState :=
  { elections := els, stations := stations, submissions := [],
    verifications := [], events := [], nextSubId := 0, nextVerId := 0 }

/-- Modelled from the spec: the capability check of the Verification
Engine (missing Django backend) — administrators and accredited observers
may verify; plain citizens may not. -/
def canVerify : Role → Bool
  | .administrator => true
  | .observer => true
  | .citizen => false

/-- Modelled from the spec: allowed resulting statuses per submission kind
(missing Django backend) — the non-pending statuses, where incidents
additionally allow `resolved` and station updates do not. -/
def allowedStatuses : Kind → List VStatus
  | .stationUpdate => [.verified, .disputed, .unverified]
  | .incident => [.verified, .disputed, .unverified, .resolved]

/-- Look up a submission by kind and id. -/
def findSubmission (s : ServerState) (k : Kind) (i : Nat) : Option Submission :=
  s.submissions.find? (fun sub => sub.kind == k && sub.id == i)

/-- The verification rows referencing the submission with the given kind
and id, in creation order. -/
def versFor (vs : List Verification) (k : Kind) (i : Nat) : List Verification :=
  vs.filter (fun v => v.submissionKind == k && v.submissionId == i)

/-- The status derived from a verification log: the resulting status of the
most-recently-created verification for the submission, or pending. -/
def derivedFrom (vs : List Verification) (k : Kind) (i : Nat) : VStatus :=
  match (versFor vs k i).getLast? with
  | some v => v.resultingStatus
  | none => .pending

/-- Modelled from the spec: the successful effect of the Verification
Engine (missing Django backend) — append a Verification row, update the
submission's cached status, emit a "status changed" event. -/
def applyVerify (s : ServerState) (k : Kind) (i : Nat) (actor : Nat)
    (st : VStatus) (notes : String) : ServerState :=
  { s with
    verifications := s.verifications ++
      [{ id := s.nextVerId, submissionKind := k, submissionId := i,
         actor := actor, resultingStatus := st, notes := notes }],
    submissions := s.submissions.map (fun sub =>
      if sub.kind == k && sub.id == i then
        { sub with verificationStatus := st } else sub),
    events := s.events ++ [{ etype := .statusChanged, kind := k, submissionId := i }],
    nextVerId := s.nextVerId + 1 }

/-- Modelled from the spec: `verify(submissionId, actorRole,
resultingStatus, notes?)` of the Verification Engine (missing Django
backend) — authorization first, then existence, then status validity; no
restriction on the prior status. -/
def verify (s : ServerState) (k : Kind) (i : Nat) (actor : Nat) (role : Role)
    (st : VStatus) (notes : String) : Except ApiError ServerState :=
  if canVerify role then
    match findSubmission s k i with
    | none => .error .notFoundError
    | some _ =>
      if st ∈ allowedStatuses k then .ok (applyVerify s k i actor st notes)
      else .error .validationError
  else .error .permissionError

/-- Input to `createSubmission`. -/
structure SubmissionInput where
  kind : Kind
  electionRef : Nat
  pollingStationRef : Option Nat
  description : String
  severity : String
  numericFields : List Int
  coordinates : Option (Int × Int)
  isAnonymous : Bool
  submitter : Option Nat
deriving DecidableEq, Repr

/-- Modelled from the spec: station reference check of the Submission API
(missing Django backend) — a given polling-station reference must exist. -/
def stationMissing (s : ServerState) (inp : SubmissionInput) : Bool :=
  match inp.pollingStationRef with
  | none => false
  | some ps => !(s.stations.contains ps)

/-- Modelled from the spec: kind-specific required fields of the Submission
API (missing Django backend) — an incident requires description and
severity. -/
def kindFieldsOk (inp : SubmissionInput) : Bool :=
  match inp.kind with
  | .stationUpdate => true
  | .incident => !(inp.description == "") && !(inp.severity == "")

/-- Modelled from the spec: numeric fields must be non-negative (missing
Django backend). -/
def numericsOk (inp : SubmissionInput) : Bool :=
  inp.numericFields.all (fun n => decide (0 ≤ n))

/-- Modelled from the spec: coordinates, if present, must be in valid
latitude/longitude ranges (missing Django backend). -/
def coordsOk : Option (Int × Int) → Bool
  | none => true
  | some (la, lo) =>
      decide (-90 ≤ la) && decide (la ≤ 90) && decide (-180 ≤ lo) && decide (lo ≤ 180)

/-- Modelled from the spec: field validation of the Submission API given
the referenced election (missing Django backend). -/
def validFields (e : Election) (inp : SubmissionInput) : Bool :=
  e.isActive && kindFieldsOk inp && numericsOk inp && coordsOk inp.coordinates

/-- The submission record persisted by a successful create. -/
def newSubmission (s : ServerState) (inp : SubmissionInput) : Submission :=
  { id := s.nextSubId, kind := inp.kind, electionRef := inp.electionRef,
    pollingStationRef := inp.pollingStationRef, isAnonymous := inp.isAnonymous,
    submitter := if inp.isAnonymous then none else inp.submitter,
    verificationStatus := .pending }

/-- Modelled from the spec: the successful effect of `createSubmission`
(missing Django backend) — persist with verificationStatus=pending and emit
exactly one "created" event. -/
def applyCreate (s : ServerState) (inp : SubmissionInput) : ServerState :=
  { s with
    submissions := s.submissions ++ [newSubmission s inp],
    events := s.events ++ [{ etype := .created, kind := inp.kind, submissionId := s.nextSubId }],
    nextSubId := s.nextSubId + 1 }

/-- Modelled from the spec: `createSubmission(kind, payload, actor?)` of
the Submission API (missing Django backend) — NotFoundError when the
referenced election or station is absent, ValidationError on invalid
fields, otherwise persist and broadcast. -/
def createSubmission (s : ServerState) (inp : SubmissionInput) : Except ApiError ServerState :=
  match s.elections.find? (fun e => e.id == inp.electionRef) with
  | none => .error .notFoundError
  | some e =>
    if stationMissing s inp then .error .notFoundError
    else if validFields e inp then .ok (applyCreate s inp)
    else .error .validationError

/-- Operations of the modelled server (failed calls leave the state
unchanged). -/
inductive Op where
  | create (inp : SubmissionInput)
  | doVerify (k : Kind) (i : Nat) (actor : Nat) (role : Role) (st : VStatus) (notes : String)
deriving DecidableEq, Repr

/-- One step of the modelled server: apply an operation; an error leaves
the state unchanged. -/
def step (s : ServerState) (op : Op) : ServerState :=
  match op with
  | .create inp =>
    match createSubmission s inp with
    | .ok s' => s'
    | .error _ => s
  | .doVerify k i actor role st notes =>
    match verify s k i actor role st notes with
    | .ok s' => s'
    | .error _ => s

/-- Run a sequence of operations from a state. -/
def run (s : ServerState) (ops : List Op) : ServerState :=
  ops.foldl step s

/-- Invariant: every submission's cached status equals the status derived
from its verification log. -/
def statusInv (s : ServerState) : Prop :=
  ∀ sub ∈ s.submissions, sub.verificationStatus = derivedFrom s.verifications sub.kind sub.id

/-- Auxiliary invariant: all persisted ids are below the id counter. -/
def idsBounded (s : ServerState) : Prop :=
  (∀ v ∈ s.verifications, v.submissionId < s.nextSubId) ∧
  (∀ sub ∈ s.submissions, sub.id < s.nextSubId)

/-- The inductive invariant of the modelled server. -/
def Inv (s : ServerState) : Prop := statusInv s ∧ idsBounded s

/-! ### Realtime Broadcaster (modelled from the spec) -/

/-- A broadcast topic: the global feed or an election-scoped feed. -/
inductive Topic where
  | global
  | election (id : Nat)
deriving DecidableEq, Repr

/-- A connected (or disconnected) client channel with its topic
subscriptions. -/
structure Client where
  id : Nat
  topics : List Topic
  connected : Bool
deriving DecidableEq, Repr

/-- Modelled from the spec: whether a client receives an event published to
an election topic (missing Django Channels backend) — it must be currently
connected and subscribed to that election's topic or to the global topic. -/
def receivesElection (c : Client) (eid : Nat) : Bool :=
  c.connected && (decide (Topic.election eid ∈ c.topics) || decide (Topic.global ∈ c.topics))

/-- Modelled from the spec: publishing an event to topic `election:{eid}`
(missing Django Channels backend) — the list of client channels the event
is delivered to, each at most once, with no replay to disconnected
clients. -/
def publishElection (clients : List Client) (eid : Nat) : List Client :=
  clients.filter (fun c => receivesElection c eid)

/-! ### Serialization for non-admin consumers (modelled from the spec) -/

/-- The client-facing serialized form of a submission. -/
structure SerializedSubmission where
  id : Nat
  kind : Kind
  isAnonymous : Bool
  verificationStatus : VStatus
  submittedBy : Option Nat
deriving DecidableEq, Repr

/-- Modelled from the spec: the serializer used for non-admin consumers
(missing Django backend) — an anonymous submission's payload never carries
a resolvable submitter reference. -/
def serializeForNonAdmin (sub : Submission) : SerializedSubmission :=
  { id := sub.id, kind := sub.kind, isAnonymous := sub.isAnonymous,
    verificationStatus := sub.verificationStatus,
    submittedBy := if sub.isAnonymous then none else sub.submitter }

/-! ### Media/Stream Registry (modelled from the spec) -/

/-- Live-stream session states. -/
inductive StreamState where
  | created
  | live
  | paused
  | ended
deriving DecidableEq, Repr

/-- A live-stream session record. -/
structure LiveStreamSession where
  id : Nat
  streamState : StreamState
  viewerCount : Nat
deriving DecidableEq, Repr

/-- Modelled from the spec: `endStream(sessionId)` of the Media/Stream
Registry (missing Django backend) — transitions the session to ended;
ending an already-ended session is a no-op, not an error. -/
def endStream (sessions : List LiveStreamSession) (i : Nat) :
    Except ApiError (List LiveStreamSession) :=
  if sessions.any (fun ss => ss.id == i) then
    .ok (sessions.map (fun ss =>
      if ss.id == i then { ss with streamState := .ended } else ss))
  else .error .notFoundError

/-! ### useWebSocket hook (embedded from the frontend source) -/

/-- The message-related state of the `useWebSocket` hook: `lastMessage` and
the `messages` list (most recent first). -/
structure WsState (α : Type) where
  lastMessage : Option α
  messages : List α
deriving DecidableEq, Repr

/-- Initial hook state: `lastMessage = null`, `messages = []`. -/
def wsInit {α : Type} : WsState α := { lastMessage := none, messages := [] }

/-- The `ws.onmessage` handler of `useWebSocket`: parse the raw event data
(JSON.parse modelled as an `Option`-returning function), set `lastMessage`,
prepend to `messages` and keep at most `maxMessages` entries
(`updated.slice(0, maxMessages)`); a parse failure is caught and leaves the
state unchanged. -/
def onMessage {α : Type} (parse : String → Option α) (maxMessages : Nat)
    (st : WsState α) (raw : String) : WsState α :=
  match parse raw with
  | some data =>
    { lastMessage := some data, messages := (data :: st.messages).take maxMessages }
  | none => st

/-- Process a sequence of received raw messages from the initial hook
state. -/
def runMessages {α : Type} (parse : String → Option α) (maxMessages : Nat)
    (msgs : List String) : WsState α :=
  msgs.foldl (onMessage parse maxMessages) wsInit

/-- The hook's default for the `maxMessages` option. -/
def defaultMaxMessages : Nat := 100

/-! ### ReportUpdate handleSubmit (embedded from the frontend source) -/

/-- JavaScript values occurring in the station-update submit payload. -/
inductive JsValue where
  | str (s : String)
  | num (n : Int)
  | nan
  | booleanVal (b : Bool)
  | nullVal
  | undefinedVal
deriving DecidableEq, Repr

/-- The `formData` state of the ReportUpdate page: all text/select/number
inputs are strings, plus the anonymous checkbox. -/
structure StationUpdateForm where
  election : String
  polling_station : String
  update_type : String
  opening_time : String
  closing_time : String
  estimated_turnout : String
  queue_wait_time : String
  queue_length : String
  status_notes : String
  photo_url : String
  is_anonymous : Bool
deriving DecidableEq, Repr

/-- Numeric value of a list of decimal digit characters. -/
def digitsVal (ds : List Char) : Nat :=
  ds.foldl (fun a c => a * 10 + (c.toNat - '0'.toNat)) 0

/-- Parse the leading digit run of a character list with a given sign;
`none` models JavaScript's NaN result. -/
def parseSigned (sign : Int) (cs : List Char) : Option Int :=
  if (cs.takeWhile Char.isDigit).isEmpty then none
  else some (sign * (digitsVal (cs.takeWhile Char.isDigit) : Int))

/-- JavaScript `parseInt` on a string (base 10): optional sign followed by
a leading digit run; `none` models NaN. -/
def jsParseInt (s : String) : Option Int :=
  match s.data with
  | '-' :: rest => parseSigned (-1) rest
  | '+' :: rest => parseSigned 1 rest
  | cs => parseSigned 1 cs

/-- The value of a numeric form field in `submitData`:
`formData.x ? parseInt(formData.x) : null` — the empty string is falsy, so
it maps to null; otherwise `parseInt` (NaN when no digits parse). -/
def numField (s : String) : JsValue :=
  if s == "" then .nullVal
  else match jsParseInt s with
    | some n => .num n
    | none => .nan

/-- `location?.latitude`: undefined when no location was captured. -/
def latValue : Option (Int × Int) → JsValue
  | some l => .num l.1
  | none => .undefinedVal

/-- `location?.longitude`: undefined when no location was captured. -/
def lngValue : Option (Int × Int) → JsValue
  | some l => .num l.2
  | none => .undefinedVal

/-- The object assembled in `handleSubmit` before empty-field removal:
the spread of `formData` with the three numeric fields overridden by their
parsed-or-null values, plus latitude/longitude from the captured
location. -/
def assembledData (fd : StationUpdateForm) (loc : Option (Int × Int)) :
    List (String × JsValue) :=
  [("election", .str fd.election),
   ("polling_station", .str fd.polling_station),
   ("update_type", .str fd.update_type),
   ("opening_time", .str fd.opening_time),
   ("closing_time", .str fd.closing_time),
   ("estimated_turnout", numField fd.estimated_turnout),
   ("queue_wait_time", numField fd.queue_wait_time),
   ("queue_length", numField fd.queue_length),
   ("status_notes", .str fd.status_notes),
   ("photo_url", .str fd.photo_url),
   ("is_anonymous", .booleanVal fd.is_anonymous),
   ("latitude", latValue loc),
   ("longitude", lngValue loc)]

/-- The removal predicate of `handleSubmit`'s cleanup loop:
`submitData[key] === '' || submitData[key] === null`. -/
def isEmptyOrNull : JsValue → Bool
  | .str s => s == ""
  | .nullVal => true
  | _ => false

/-- The payload actually posted to the station-updates create endpoint:
the assembled object with every empty-string or null field deleted. -/
def submitData (fd : StationUpdateForm) (loc : Option (Int × Int)) :
    List (String × JsValue) :=
  (assembledData fd loc).filter (fun kv => !isEmptyOrNull kv.2)

/-! ### Concrete demonstration data for the closed witness statements -/

/-- One active election. -/
def demoElections : List Election := [{ id := 1, isActive := true }]

/-- One polling station. -/
def demoStations : List Nat := [5]

/-- A valid station-update creation input. -/
def demoUpdateInput : SubmissionInput :=
  { kind := .stationUpdate, electionRef := 1, pollingStationRef := some 5,
    description := "", severity := "", numericFields := [],
    coordinates := none, isAnonymous := false, submitter := some 7 }

/-- A valid anonymous incident creation input. -/
def demoIncidentInput : SubmissionInput :=
  { kind := .incident, electionRef := 1, pollingStationRef := none,
    description := "ballot shortage", severity := "high",
    numericFields := [3], coordinates := some (1, 36),
    isAnonymous := true, submitter := some 7 }

/-- A server state holding one pending station update (id 0). -/
def demoState : ServerState :=
  step (initState demoElections demoStations) (.create demoUpdateInput)

/-- The two-verification scenario: create, verify as verified, then verify
as disputed. -/
def demoOps : List Op :=
  [.create demoUpdateInput,
   .doVerify .stationUpdate 0 9 .administrator .verified "looks right",
   .doVerify .stationUpdate 0 9 .administrator .disputed "conflicting report"]

/-- Four clients: one on the election-42 topic, one on global, one on a
different election topic, one disconnected. -/
def demoClients : List Client :=
  [{ id := 1, topics := [Topic.election 42], connected := true },
   { id := 2, topics := [Topic.global], connected := true },
   { id := 3, topics := [Topic.election 7], connected := true },
   { id := 4, topics := [Topic.election 42], connected := false }]

/-- An anonymous submission with a submitter reference on record. -/
def demoAnonSubmission : Submission :=
  { id := 0, kind := .incident, electionRef := 1, pollingStationRef := none,
    isAnonymous := true, submitter := some 7, verificationStatus := .pending }

/-- Two stream sessions: one already ended, one live. -/
def demoSessions : List LiveStreamSession :=
  [{ id := 1, streamState := .ended, viewerCount := 3 },
   { id := 2, streamState := .live, viewerCount := 12 }]

/-- A concrete parse function standing in for JSON.parse in the witness. -/
def demoParse : String → Option Nat :=
  fun s => if s == "a" then some 1 else if s == "b" then some 2 else none

/-- A concrete filled form: queue update with empty opening/closing times,
empty turnout and empty photo URL. -/
def demoForm : StationUpdateForm :=
  { election := "1", polling_station := "5", update_type := "queue",
    opening_time := "", closing_time := "", estimated_turnout := "",
    queue_wait_time := "15", queue_length := "40",
    status_notes := "long line", photo_url := "", is_anonymous := false }

/-! ### Invariant lemmas for the verification workflow -/

lemma versFor_concat_true (vs : List Verification) (nv : Verification) (k : Kind) (i : Nat)
    (h : (nv.submissionKind == k && nv.submissionId == i) = true) :
    versFor (vs ++ [nv]) k i = versFor vs k i ++ [nv] := by
  simp [versFor, List.filter_append, h]

lemma versFor_concat_false (vs : List Verification) (nv : Verification) (k : Kind) (i : Nat)
    (h : (nv.submissionKind == k && nv.submissionId == i) = false) :
    versFor (vs ++ [nv]) k i = versFor vs k i := by
  simp [versFor, List.filter_append, h]

lemma derivedFrom_concat_true (vs : List Verification) (nv : Verification) (k : Kind) (i : Nat)
    (h : (nv.submissionKind == k && nv.submissionId == i) = true) :
    derivedFrom (vs ++ [nv]) k i = nv.resultingStatus := by
  simp [derivedFrom, versFor_concat_true vs nv k i h, List.getLast?_concat]

lemma derivedFrom_concat_false (vs : List Verification) (nv : Verification) (k : Kind) (i : Nat)
    (h : (nv.submissionKind == k && nv.submissionId == i) = false) :
    derivedFrom (vs ++ [nv]) k i = derivedFrom vs k i := by
  simp [derivedFrom, versFor_concat_false vs nv k i h]

lemma statusInv_applyVerify (s : ServerState) (k : Kind) (i : Nat) (actor : Nat)
    (st : VStatus) (notes : String) (hinv : statusInv s) :
    statusInv (applyVerify s k i actor st notes) := by
  intro sub' hmem
  simp only [applyVerify, List.mem_map] at hmem
  obtain ⟨sub, hsub, rfl⟩ := hmem
  simp only [applyVerify]
  by_cases hc : (sub.kind == k && sub.id == i) = true
  · obtain ⟨hk, hi⟩ : sub.kind = k ∧ sub.id = i := by
      simpa [Bool.and_eq_true] using hc
    subst hk; subst hi
    rw [if_pos hc, derivedFrom_concat_true]
    simp
  · rw [if_neg hc]
    rw [derivedFrom_concat_false]
    · exact hinv sub hsub
    · have hne : ¬(sub.kind = k ∧ sub.id = i) := by
        intro hand
        exact hc (by simp [hand.1, hand.2])
      rw [Bool.eq_false_iff]
      intro htrue
      simp only [Bool.and_eq_true, beq_iff_eq] at htrue
      exact hne ⟨htrue.1.symm, htrue.2.symm⟩

lemma idsBounded_applyVerify (s : ServerState) (k : Kind) (i : Nat) (actor : Nat)
    (st : VStatus) (notes : String) (hb : idsBounded s)
    (hex : ∃ sub ∈ s.submissions, sub.id = i) :
    idsBounded (applyVerify s k i actor st notes) := by
  obtain ⟨hv, hs⟩ := hb
  constructor
  · intro v hvmem
    simp only [applyVerify, List.mem_append, List.mem_singleton] at hvmem
    rcases hvmem with h | h
    · exact hv v h
    · subst h
      obtain ⟨sub, hsub, hid⟩ := hex
      simpa [applyVerify, hid] using hid ▸ hs sub hsub
  · intro sub' hmem
    simp only [applyVerify, List.mem_map] at hmem
    obtain ⟨sub, hsub, rfl⟩ := hmem
    simp only [applyVerify]
    split <;> simpa using hs sub hsub

lemma inv_applyVerify (s : ServerState) (k : Kind) (i : Nat) (actor : Nat)
    (st : VStatus) (notes : String) (h : Inv s)
    (hex : ∃ sub ∈ s.submissions, sub.id = i) :
    Inv (applyVerify s k i actor st notes) :=
  ⟨statusInv_applyVerify s k i actor st notes h.1,
   idsBounded_applyVerify s k i actor st notes h.2 hex⟩

lemma inv_applyCreate (s : ServerState) (inp : SubmissionInput) (h : Inv s) :
    Inv (applyCreate s inp) := by
  obtain ⟨hst, hv, hs⟩ := h
  refine ⟨?_, ?_, ?_⟩
  · intro sub hmem
    simp only [applyCreate, List.mem_append, List.mem_singleton] at hmem
    rcases hmem with hmem | hmem
    · simpa [applyCreate] using hst sub hmem
    · subst hmem
      have hnil : versFor s.verifications inp.kind s.nextSubId = [] := by
        rw [versFor, List.filter_eq_nil_iff]
        intro v hvm
        have hlt := hv v hvm
        simp only [Bool.and_eq_true, beq_iff_eq, not_and]
        intro _
        omega
      simp [applyCreate, newSubmission, derivedFrom, hnil]
  · intro v hvm
    simp only [applyCreate] at hvm ⊢
    exact Nat.lt_succ_of_lt (hv v hvm)
  · intro sub hmem
    simp only [applyCreate, List.mem_append, List.mem_singleton] at hmem ⊢
    rcases hmem with hmem | hmem
    · exact Nat.lt_succ_of_lt (hs sub hmem)
    · subst hmem
      simp [newSubmission]

lemma verify_ok {s : ServerState} {k : Kind} {i actor : Nat} {role : Role}
    {st : VStatus} {notes : String} {s' : ServerState}
    (h : verify s k i actor role st notes = .ok s') :
    s' = applyVerify s k i actor st notes ∧ ∃ sub ∈ s.submissions, sub.id = i := by
  by_cases hr : canVerify role = true
  · rcases hf : findSubmission s k i with _ | sub
    · simp [verify, hr, hf] at h
    · have hmem := List.mem_of_find?_eq_some hf
      have hp := List.find?_some hf
      simp only [Bool.and_eq_true, beq_iff_eq] at hp
      by_cases hst : st ∈ allowedStatuses k
      · simp only [verify, hr, if_true, hf, hst, if_pos, Except.ok.injEq] at h
        exact ⟨h.symm, sub, hmem, hp.2⟩
      · simp [verify, hr, hf, hst] at h
  · simp [verify, hr] at h

lemma create_ok {s : ServerState} {inp : SubmissionInput} {s' : ServerState}
    (h : createSubmission s inp = .ok s') : s' = applyCreate s inp := by
  rcases he : s.elections.find? (fun e => e.id == inp.electionRef) with _ | e
  · simp [createSubmission, he] at h
  · by_cases hm : stationMissing s inp = true
    · simp [createSubmission, he, hm] at h
    · have hm2 : stationMissing s inp = false := by
        revert hm
        cases stationMissing s inp <;> simp
      by_cases hv : validFields e inp = true
      · simp only [createSubmission, he, hm2, Bool.false_eq_true, if_false, hv, if_true,
          Except.ok.injEq] at h
        exact h.symm
      · simp [createSubmission, he, hm2, hv] at h

lemma inv_step (s : ServerState) (op : Op) (h : Inv s) : Inv (step s op) := by
  cases op with
  | create inp =>
    rcases hc : createSubmission s inp with e | s'
    · simpa [step, hc] using h
    · have heq := create_ok hc
      simp only [step, hc, heq]
      exact inv_applyCreate s inp h
  | doVerify k i actor role st notes =>
    rcases hv : verify s k i actor role st notes with e | s'
    · simpa [step, hv] using h
    · obtain ⟨heq, hex⟩ := verify_ok hv
      simp only [step, hv, heq]
      exact inv_applyVerify s k i actor st notes h hex

lemma inv_init (els : List Election) (stations : List Nat) :
    Inv (initState els stations) := by
  refine ⟨?_, ?_, ?_⟩ <;> intro x hx <;> simp [initState] at hx

lemma inv_run (s : ServerState) (ops : List Op) (h : Inv s) : Inv (run s ops) := by
  induction ops generalizing s with
  | nil => exact h
  | cons op ops ih => exact ih (step s op) (inv_step s op h)

lemma step_verifications_append (s : ServerState) (op : Op) :
    ∃ t, (step s op).verifications = s.verifications ++ t := by
  cases op with
  | create inp =>
    rcases hc : createSubmission s inp with e | s'
    · exact ⟨[], by simp [step, hc]⟩
    · refine ⟨[], ?_⟩
      simp only [step, hc, create_ok hc]
      simp [applyCreate]
  | doVerify k i actor role st notes =>
    rcases hv : verify s k i actor role st notes with e | s'
    · exact ⟨[], by simp [step, hv]⟩
    · obtain ⟨heq, _⟩ := verify_ok hv
      refine ⟨[{ id := s.nextVerId, submissionKind := k, submissionId := i,
                 actor := actor, resultingStatus := st, notes := notes }], ?_⟩
      simp only [step, hv, heq, applyVerify]

lemma run_verifications_append (s : ServerState) (ops : List Op) :
    ∃ t, (run s ops).verifications = s.verifications ++ t := by
  induction ops generalizing s with
  | nil => exact ⟨[], by simp [run]⟩
  | cons op ops ih =>
    obtain ⟨t1, h1⟩ := step_verifications_append s op
    obtain ⟨t2, h2⟩ := ih (step s op)
    refine ⟨t1 ++ t2, ?_⟩
    show (run (step s op) ops).verifications = _
    rw [h2, h1, List.append_assoc]

/-- C1: a Submission's current verificationStatus always equals the
resultingStatus of the most-recently-created Verification referencing it,
or pending if none exists — over every reachable state of the modelled
server; and in the concrete two-verification scenario (verified then
disputed) the final status is disputed with both rows in creation order. -/
theorem C1_status_matches_latest_verification :
    (∀ els stations ops, statusInv (run (initState els stations) ops)) ∧
    (findSubmission (run (initState demoElections demoStations) demoOps)
        .stationUpdate 0).map (fun sub => sub.verificationStatus) =
      some .disputed ∧
    (versFor (run (initState demoElections demoStations) demoOps).verifications
        .stationUpdate 0).map (fun v => v.resultingStatus) =
      [.verified, .disputed] := by
  refine ⟨?_, ?_, ?_⟩
  · intro els stations ops
    exact (inv_run _ ops (inv_init els stations)).1
  · rfl
  · rfl

/-- Witness for C1: the invariant evaluated on the concrete scenario run. -/
theorem C1_witness :
    statusInv (run (initState demoElections demoStations) demoOps) :=
  C1_status_matches_latest_verification.1 demoElections demoStations demoOps

/-- C8: Verification records are append-only — every run of operations
extends the verification log at the end (so no existing row is mutated,
reordered or deleted), and the count of Verification rows referencing any
given submission never decreases. -/
theorem C8_verifications_append_only :
    ∀ s ops,
    (∃ t, (run s ops).verifications = s.verifications ++ t) ∧
    (∀ v ∈ s.verifications, v ∈ (run s ops).verifications) ∧
    (∀ k i, (versFor s.verifications k i).length ≤
      (versFor (run s ops).verifications k i).length) := by
  intro s ops
  obtain ⟨t, ht⟩ := run_verifications_append s ops
  refine ⟨⟨t, ht⟩, ?_, ?_⟩
  · intro v hv
    rw [ht]
    exact List.mem_append_left t hv
  · intro k i
    rw [ht]
    simp [versFor, List.filter_append]

/-- Witness for C8: append-only facts on the concrete scenario run. -/
theorem C8_witness :
    (∃ t, (run demoState demoOps).verifications = demoState.verifications ++ t) ∧
    (∀ v ∈ demoState.verifications, v ∈ (run demoState demoOps).verifications) ∧
    (versFor demoState.verifications .stationUpdate 0).length ≤
      (versFor (run demoState demoOps).verifications .stationUpdate 0).length :=
  ⟨(C8_verifications_append_only demoState demoOps).1,
   (C8_verifications_append_only demoState demoOps).2.1,
   (C8_verifications_append_only demoState demoOps).2.2 .stationUpdate 0⟩

/-- C2: createSubmission persists the record with verificationStatus
pending and emits exactly one creation event on valid input; it fails with
NotFoundError when the referenced election or station is absent, and with
ValidationError on invalid fields (inactive election, missing kind-specific
fields, negative numerics, out-of-range coordinates). -/
theorem C2_createSubmission_contract :
    ∀ s inp,
    (s.elections.find? (fun e => e.id == inp.electionRef) = none →
      createSubmission s inp = .error .notFoundError) ∧
    (∀ el, s.elections.find? (fun e => e.id == inp.electionRef) = some el →
      stationMissing s inp = true →
      createSubmission s inp = .error .notFoundError) ∧
    (∀ el, s.elections.find? (fun e => e.id == inp.electionRef) = some el →
      stationMissing s inp = false → validFields el inp = false →
      createSubmission s inp = .error .validationError) ∧
    (∀ el, s.elections.find? (fun e => e.id == inp.electionRef) = some el →
      stationMissing s inp = false → validFields el inp = true →
      createSubmission s inp = .ok (applyCreate s inp) ∧
      (applyCreate s inp).submissions = s.submissions ++ [newSubmission s inp] ∧
      (newSubmission s inp).verificationStatus = .pending ∧
      (applyCreate s inp).events = s.events ++
        [{ etype := .created, kind := inp.kind, submissionId := s.nextSubId }]) := by
  intro s inp
  refine ⟨?_, ?_, ?_, ?_⟩
  · intro he
    simp [createSubmission, he]
  · intro el he hm
    simp [createSubmission, he, hm]
  · intro el he hm hv
    simp [createSubmission, he, hm, hv]
  · intro el he hm hv
    refine ⟨by simp [createSubmission, he, hm, hv], by simp [applyCreate], rfl,
      by simp [applyCreate]⟩

/-- Witness for C2: the concrete incident input is created successfully
against the demo reference data. -/
theorem C2_witness :
    createSubmission (initState demoElections demoStations) demoIncidentInput =
      .ok (applyCreate (initState demoElections demoStations) demoIncidentInput) :=
  ((C2_createSubmission_contract (initState demoElections demoStations)
      demoIncidentInput).2.2.2 { id := 1, isActive := true }
    (by decide) (by decide) (by decide)).1

/-- C3: a verify call's resultingStatus must belong to the allowed set for
the submission's kind — a status outside that set fails with
ValidationError — and incident reports additionally allow resolved while
station updates do not. -/
theorem C3_allowed_status_sets :
    (∀ s k i actor role st notes sub, canVerify role = true →
      findSubmission s k i = some sub → st ∉ allowedStatuses k →
      verify s k i actor role st notes = .error .validationError) ∧
    VStatus.resolved ∈ allowedStatuses .incident ∧
    VStatus.resolved ∉ allowedStatuses .stationUpdate := by
  refine ⟨?_, by decide, by decide⟩
  intro s k i actor role st notes sub hr hf hst
  simp [verify, hr, hf, hst]

/-- Witness for C3: marking a station update resolved is rejected with a
validation error. -/
theorem C3_witness :
    verify demoState .stationUpdate 0 9 .administrator .resolved "" =
      .error .validationError :=
  C3_allowed_status_sets.1 demoState .stationUpdate 0 9 .administrator
    .resolved ""
    { id := 0, kind := .stationUpdate, electionRef := 1,
      pollingStationRef := some 5, isAnonymous := false, submitter := some 7,
      verificationStatus := .pending }
    (by decide) (by decide) (by decide)

/-- C5: a verify call by an actor without an authorized role fails with
PermissionError and creates no Verification row; a verify call by an
authorized actor on an existing submission with an allowed target status
always succeeds, with no condition on the submission's current
verificationStatus (re-verification included). -/
theorem C5_verify_authorization :
    ∀ s k i actor role st notes,
    (canVerify role = false →
      verify s k i actor role st notes = .error .permissionError ∧
      (step s (.doVerify k i actor role st notes)).verifications =
        s.verifications) ∧
    (∀ sub, canVerify role = true → findSubmission s k i = some sub →
      st ∈ allowedStatuses k →
      verify s k i actor role st notes = .ok (applyVerify s k i actor st notes)) := by
  intro s k i actor role st notes
  constructor
  · intro hr
    refine ⟨by simp [verify, hr], ?_⟩
    simp [step, verify, hr]
  · intro sub hr hf hst
    simp [verify, hr, hf, hst]

/-- Witness for C5: a citizen's verify call is denied without touching the
log, while an administrator may re-verify the same (non-pending)
submission. -/
theorem C5_witness :
    (verify (run demoState demoOps) .stationUpdate 0 3 .citizen .verified "" =
        .error .permissionError ∧
      (step (run demoState demoOps)
          (.doVerify .stationUpdate 0 3 .citizen .verified "")).verifications =
        (run demoState demoOps).verifications) ∧
    verify (run demoState demoOps) .stationUpdate 0 9 .administrator .verified "" =
      .ok (applyVerify (run demoState demoOps) .stationUpdate 0 9 .verified "") :=
  ⟨(C5_verify_authorization (run demoState demoOps) .stationUpdate 0 3 .citizen
      .verified "").1 (by decide),
   (C5_verify_authorization (run demoState demoOps) .stationUpdate 0 9
      .administrator .verified "").2
     { id := 0, kind := .stationUpdate, electionRef := 1,
       pollingStationRef := some 5, isAnonymous := false, submitter := some 7,
       verificationStatus := .disputed }
     (by decide) (by decide) (by decide)⟩

/-- C4: publishing an event to topic election:{id} delivers it exactly to
the currently-connected clients subscribed to that election topic or to
the global topic — never to a client subscribed only to a different
election topic, never to a disconnected client, and at most once per
client. -/
theorem C4_broadcast_delivery :
    ∀ clients eid c,
    (c ∈ publishElection clients eid ↔
      c ∈ clients ∧ receivesElection c eid = true) ∧
    (c.connected = false → c ∉ publishElection clients eid) ∧
    (Topic.global ∉ c.topics → Topic.election eid ∉ c.topics →
      c ∉ publishElection clients eid) ∧
    (clients.Nodup → (publishElection clients eid).count c ≤ 1) := by
  intro clients eid c
  refine ⟨List.mem_filter, ?_, ?_, ?_⟩
  · intro hc hmem
    have hrecv := (List.mem_filter.mp hmem).2
    simp [receivesElection, hc] at hrecv
  · intro hg he hmem
    have hrecv := (List.mem_filter.mp hmem).2
    simp only [receivesElection, Bool.and_eq_true, Bool.or_eq_true,
      decide_eq_true_eq] at hrecv
    rcases hrecv.2 with h | h
    · exact he h
    · exact hg h
  · intro hnd
    exact List.nodup_iff_count_le_one.mp (hnd.filter _) c

/-- Witness for C4: with the demo clients, the client subscribed only to
election 7 misses the election-42 publish and the election-42 subscriber
is delivered to at most once. -/
theorem C4_witness :
    ({ id := 3, topics := [Topic.election 7], connected := true } : Client) ∉
      publishElection demoClients 42 ∧
    (publishElection demoClients 42).count
      { id := 1, topics := [Topic.election 42], connected := true } ≤ 1 :=
  ⟨(C4_broadcast_delivery demoClients 42
      { id := 3, topics := [Topic.election 7], connected := true }).2.2.1
    (by decide) (by decide),
   (C4_broadcast_delivery demoClients 42
      { id := 1, topics := [Topic.election 42], connected := true }).2.2.2
    (by decide)⟩

/-- C6: the non-admin serialization of an anonymous submission carries no
resolvable submitter reference and is identical for any two submitter
identities. -/
theorem C6_anonymous_serialization :
    ∀ sub a b, sub.isAnonymous = true →
    serializeForNonAdmin { sub with submitter := a } =
      serializeForNonAdmin { sub with submitter := b } ∧
    (serializeForNonAdmin sub).submittedBy = none := by
  intro sub a b h
  constructor
  · simp [serializeForNonAdmin, h]
  · simp [serializeForNonAdmin, h]

/-- Witness for C6: the demo anonymous submission serializes identically
for two different submitter identities and exposes no submitter. -/
theorem C6_witness :
    serializeForNonAdmin { demoAnonSubmission with submitter := some 7 } =
      serializeForNonAdmin { demoAnonSubmission with submitter := some 8 } ∧
    (serializeForNonAdmin demoAnonSubmission).submittedBy = none :=
  C6_anonymous_serialization demoAnonSubmission (some 7) (some 8) rfl

/-- C7: endStream is idempotent — a successful endStream leaves a state on
which a further endStream succeeds with no change at all, and ending a
session that is already ended returns success with the session list
unchanged. -/
theorem C7_endStream_idempotent :
    ∀ sessions i s',
    (endStream sessions i = .ok s' → endStream s' i = .ok s') ∧
    ((∀ ss ∈ sessions, ss.id = i → ss.streamState = .ended) →
      endStream sessions i = .ok s' → s' = sessions) := by
  intro sessions i s'
  constructor
  · intro h
    by_cases hany : sessions.any (fun ss => ss.id == i) = true
    · simp only [endStream, hany, if_true, Except.ok.injEq] at h
      have hany2 : s'.any (fun ss => ss.id == i) = true := by
        rw [List.any_eq_true] at hany ⊢
        obtain ⟨ss, hss, hpi⟩ := hany
        refine ⟨if ss.id == i then { ss with streamState := StreamState.ended }
                else ss, ?_, ?_⟩
        · rw [← h]
          exact List.mem_map_of_mem _ hss
        · rw [if_pos hpi]
          exact hpi
      simp only [endStream, hany2, if_true, Except.ok.injEq]
      rw [← h, List.map_map]
      apply List.map_congr_left
      intro ss _hss
      by_cases hc : (ss.id == i) = true
      · simp [Function.comp, hc]
      · simp [Function.comp, hc]
    · simp [endStream, hany] at h
  · intro hall h
    by_cases hany : sessions.any (fun ss => ss.id == i) = true
    · simp only [endStream, hany, if_true, Except.ok.injEq] at h
      rw [← h]
      have : ∀ ss ∈ sessions,
          (if ss.id == i then { ss with streamState := StreamState.ended }
           else ss) = ss := by
        intro ss hss
        by_cases hc : (ss.id == i) = true
        · rw [if_pos hc]
          have hend := hall ss hss (beq_iff_eq.mp hc)
          cases ss with
          | mk sid sstate svc =>
            simp only at hend
            rw [hend]
        · rw [if_neg hc]
      rw [List.map_congr_left this]
      simp
    · simp [endStream, hany] at h

/-- Witness for C7: ending the already-ended demo session 1 succeeds and
leaves the session list untouched, and doing it again is equally a
no-op. -/
theorem C7_witness :
    endStream demoSessions 1 = .ok demoSessions ∧
    demoSessions = demoSessions :=
  ⟨(C7_endStream_idempotent demoSessions 1 demoSessions).1 (by rfl),
   (C7_endStream_idempotent demoSessions 1 demoSessions).2
     (by decide) (by rfl)⟩

lemma onMessage_length_le {α : Type} (parse : String → Option α)
    (maxM : Nat) (st : WsState α) (raw : String)
    (h : st.messages.length ≤ maxM) :
    (onMessage parse maxM st raw).messages.length ≤ maxM := by
  unfold onMessage
  cases parse raw with
  | none => exact h
  | some d => exact List.length_take_le maxM _

lemma foldMessages_length_le {α : Type} (parse : String → Option α)
    (maxM : Nat) (msgs : List String) (st : WsState α)
    (h : st.messages.length ≤ maxM) :
    (msgs.foldl (onMessage parse maxM) st).messages.length ≤ maxM := by
  induction msgs generalizing st with
  | nil => exact h
  | cons m ms ih =>
    exact ih (onMessage parse maxM st m)
      (onMessage_length_le parse maxM st m h)

/-- C9: over every sequence of received messages, the useWebSocket hook's
messages list holds the most recent successfully-parsed message first and
its length never exceeds maxMessages (whose default is 100); a message
that fails JSON parsing is dropped without modifying the state. -/
theorem C9_useWebSocket_messages :
    ∀ (α : Type) (parse : String → Option α) (maxM : Nat) (msgs : List String),
    ((runMessages parse maxM msgs).messages.length ≤ maxM) ∧
    (∀ (st : WsState α) raw d, parse raw = some d → 1 ≤ maxM →
      (onMessage parse maxM st raw).messages.head? = some d ∧
      (onMessage parse maxM st raw).lastMessage = some d) ∧
    (∀ (st : WsState α) raw, parse raw = none →
      onMessage parse maxM st raw = st) ∧
    defaultMaxMessages = 100 := by
  intro α parse maxM msgs
  refine ⟨?_, ?_, ?_, rfl⟩
  · exact foldMessages_length_le parse maxM msgs wsInit (by simp [wsInit])
  · intro st raw d hparse hpos
    obtain ⟨n, rfl⟩ : ∃ n, maxM = n + 1 := ⟨maxM - 1, by omega⟩
    simp [onMessage, hparse, List.take_succ_cons]
  · intro st raw hparse
    simp [onMessage, hparse]

/-- Witness for C9: a concrete four-message sequence with one unparsable
message, processed with maxMessages 2. -/
theorem C9_witness :
    (runMessages demoParse 2 ["a", "zz", "b", "a"]).messages.length ≤ 2 ∧
    (onMessage demoParse 2 wsInit "a").messages.head? = some 1 ∧
    onMessage demoParse 2 (wsInit : WsState Nat) "zz" = wsInit :=
  ⟨(C9_useWebSocket_messages Nat demoParse 2 ["a", "zz", "b", "a"]).1,
   ((C9_useWebSocket_messages Nat demoParse 2 []).2.1 wsInit "a" 1
     (by decide) (by decide)).1,
   (C9_useWebSocket_messages Nat demoParse 2 []).2.2.1 wsInit "zz" (by decide)⟩

/-- C10: the payload posted by ReportUpdate's handleSubmit never contains
a key whose value is the empty string or null, and the three numeric
fields are included only when the corresponding form field is non-empty,
carrying its parseInt value. -/
theorem C10_submit_payload_clean :
    ∀ fd loc,
    (∀ kv ∈ submitData fd loc, kv.2 ≠ JsValue.str "" ∧ kv.2 ≠ JsValue.nullVal) ∧
    (∀ v, ("estimated_turnout", v) ∈ submitData fd loc →
      fd.estimated_turnout ≠ "" ∧ v = numField fd.estimated_turnout) ∧
    (∀ v, ("queue_wait_time", v) ∈ submitData fd loc →
      fd.queue_wait_time ≠ "" ∧ v = numField fd.queue_wait_time) ∧
    (∀ v, ("queue_length", v) ∈ submitData fd loc →
      fd.queue_length ≠ "" ∧ v = numField fd.queue_length) := by
  intro fd loc
  refine ⟨?_, ?_, ?_, ?_⟩
  · intro kv hkv
    have hkeep := (List.mem_filter.mp hkv).2
    constructor
    · intro heq
      rw [heq] at hkeep
      simp [isEmptyOrNull] at hkeep
    · intro heq
      rw [heq] at hkeep
      simp [isEmptyOrNull] at hkeep
  · intro v hv
    obtain ⟨hmem, hkeep⟩ := List.mem_filter.mp hv
    simp only [assembledData, List.mem_cons, List.not_mem_nil, or_false,
      Prod.mk.injEq] at hmem
    rcases hmem with h|h|h|h|h|h|h|h|h|h|h|h|h
    all_goals first
      | exact absurd h.1 (by decide)
      | · refine ⟨?_, h.2⟩
          intro he
          rw [h.2, he] at hkeep
          simp [numField, isEmptyOrNull] at hkeep
  · intro v hv
    obtain ⟨hmem, hkeep⟩ := List.mem_filter.mp hv
    simp only [assembledData, List.mem_cons, List.not_mem_nil, or_false,
      Prod.mk.injEq] at hmem
    rcases hmem with h|h|h|h|h|h|h|h|h|h|h|h|h
    all_goals first
      | exact absurd h.1 (by decide)
      | · refine ⟨?_, h.2⟩
          intro he
          rw [h.2, he] at hkeep
          simp [numField, isEmptyOrNull] at hkeep
  · intro v hv
    obtain ⟨hmem, hkeep⟩ := List.mem_filter.mp hv
    simp only [assembledData, List.mem_cons, List.not_mem_nil, or_false,
      Prod.mk.injEq] at hmem
    rcases hmem with h|h|h|h|h|h|h|h|h|h|h|h|h
    all_goals first
      | exact absurd h.1 (by decide)
      | · refine ⟨?_, h.2⟩
          intro he
          rw [h.2, he] at hkeep
          simp [numField, isEmptyOrNull] at hkeep

/-- Witness for C10: in the posted demo payload the wait-time key carries
the parsed integer 15 and its form field was non-empty. -/
theorem C10_witness :
    demoForm.queue_wait_time ≠ "" ∧
    JsValue.num 15 = numField demoForm.queue_wait_time :=
  (C10_submit_payload_clean demoForm (some (1, 36))).2.2.1
    (JsValue.num 15) (by decide)

end ElectionMonitor
